import Mathlib

/-!
Verification of the WPRequest base request type and its resource subtypes
(wordpress-rest-api). The JavaScript source `lib/WPRequest.js` is embedded
shallowly: the transport adapter's behaviour (the `(err, result)` pair its
`.end` callback receives) is an explicit input, and the observable actions of
a verb method — the transport request it issues, whether it returns a promise,
the invocation of the (ensured) callback and the settlement of the promise —
are recorded as explicit data. Machine state is pure: every verb returns the
instance state it leaves behind.
-/

deriving instance DecidableEq for Except

/-- The embedding of JavaScript's `String.prototype.toLowerCase()` as used
on HTTP method names: lowercase every character. -/
def jsToLowerCase (s : String) : String :=
  String.mk (s.data.map Char.toLower)

/-- Configuration options passed to the `WPRequest` constructor:
`endpoint`, `username`, `password` (`lib/WPRequest.js` lines 16-28). -/
structure WPOptions where
  endpoint : String
  username : String
  password : String
deriving DecidableEq, Repr

/-- The `WPRequest` instance state: `_options` and `_supportedMethods`
(`lib/WPRequest.js` lines 21-38). -/
structure WPRequest where
  _options : WPOptions
  _supportedMethods : List String
deriving DecidableEq, Repr

/-- The `WPRequest` constructor: stores the options and initialises
`_supportedMethods` to the full verb list, in source order
(`lib/WPRequest.js` line 37). -/
def WPRequest.construct (options : WPOptions) : WPRequest :=
  { _options := options
  , _supportedMethods := [ "head", "get", "put", "post", "patch", "delete" ] }

/-- A superagent response object as consumed by this layer: its `body`,
`headers` and optional `error` fields.  `V` is the type of JavaScript values
carried in `body`/`headers`, `E` the type of error values. -/
structure Response (V E : Type) where
  body : V
  headers : V
  error : Option E
deriving DecidableEq, Repr

/-- The HTTP request handed to the transport adapter: the agent verb used,
the target URL, the headers added via `.set`, and the payload given to
`.send` (if any). -/
structure TransportRequest (V : Type) where
  method : String
  url : String
  headers : List (String × String)
  payload : Option V
deriving DecidableEq, Repr

/-- Observable events of one verb invocation, in the order they happen
inside `invokeAndPromisify`'s `request.end` handler: the callback invocation
`callback(err, transform(result))`, then the promise settlement. -/
inductive Ev (V E : Type) where
  | cb (err : Option E) (value : V)
  | resolve (value : V)
  | reject (e : E)
deriving DecidableEq, Repr

/-- `returnBody` (`lib/WPRequest.js` lines 111-113): extract the `body`
field of a response. -/
def returnBody {V E : Type} (result : Response V E) : V :=
  result.body

/-- `returnHeaders` (`lib/WPRequest.js` lines 123-125): extract the
`headers` field of a response. -/
def returnHeaders {V E : Type} (result : Response V E) : V :=
  result.headers

/-- The promise-settlement step of `invokeAndPromisify`
(`lib/WPRequest.js` lines 94-98): `reject( err || result.error )` when
`err` or `result.error` is set, else `resolve( transform( result ) )`. -/
def promiseSettle {V E : Type} (transform : Response V E → V)
    (err : Option E) (result : Response V E) : List (Ev V E) :=
  match err with
  | some e => [ Ev.reject e ]
  | none =>
    match result.error with
    | some e => [ Ev.reject e ]
    | none => [ Ev.resolve (transform result) ]

/-- `invokeAndPromisify` (`lib/WPRequest.js` lines 82-101), as the ordered
event trace produced by its `request.end(function(err, result) ...)`
handler: first `callback( err, transform( result ) )` — the callback is the
result of `ensureFunction`, so this invocation always happens, with `noop`
when no callback was supplied — then the promise settlement. -/
def invokeAndPromisify {V E : Type} (transform : Response V E → V)
    (err : Option E) (result : Response V E) : List (Ev V E) :=
  Ev.cb err (transform result) :: promiseSettle transform err result

/-- Everything observable about one verb-method invocation: the transport
request issued (none when no network call is made), whether the method
returned a promise (`patch` returns `undefined`), the event trace of the
callback/promise shim, and the instance state after the call (no verb method
assigns to `this`, so each returns its receiver unchanged). -/
structure VerbOutcome (V E : Type) where
  issued : Option (TransportRequest V)
  promised : Bool
  events : List (Ev V E)
  finalState : WPRequest
deriving DecidableEq, Repr

/-- The embedding of JavaScript's `Array.prototype.join( sep )`: the
elements separated by `sep`. -/
def jsJoin (sep : String) : List String → String
  | [] => ""
  | [ s ] => s
  | s :: rest => s ++ sep ++ jsJoin sep rest

/-- The message of the error thrown by `_checkMethodSupport`
(`lib/WPRequest.js` lines 137-140): the fixed prefix followed by
`this._supportedMethods.join( ', ' )`. -/
def unsupportedMessage (self : WPRequest) : String :=
  "Unsupported method; supported methods are: " ++
    jsJoin ", " self._supportedMethods

/-- `WPRequest.prototype._checkMethodSupport` (`lib/WPRequest.js` lines
135-144): if `method.toLowerCase()` is absent from `_supportedMethods`
(`indexOf === -1`), throw the unsupported-method error; else return true.
Thrown errors are `Except.error`. -/
def WPRequest._checkMethodSupport (self : WPRequest) (method : String) :
    Except String Bool :=
  if self._supportedMethods.contains (jsToLowerCase method) then
    Except.ok true
  else
    Except.error (unsupportedMessage self)

/-- `WPRequest.prototype.generateRequestUri` (`lib/WPRequest.js` lines
155-157): the base implementation returns the configured endpoint. -/
def WPRequest.generateRequestUri (self : WPRequest) : String :=
  self._options.endpoint

/-- `WPRequest.prototype.get` (`lib/WPRequest.js` lines 170-175): check
method support, build the URL, then `invokeAndPromisify( agent.get( url ),
callback, returnBody )`.  `err`/`result` are what the transport adapter
passes to the `.end` handler. -/
def WPRequest.get {V E : Type} (self : WPRequest)
    (err : Option E) (result : Response V E) :
    Except String (VerbOutcome V E) :=
  match self._checkMethodSupport "get" with
  | Except.error e => Except.error e
  | Except.ok _ =>
    let url := self.generateRequestUri
    Except.ok
      { issued := some { method := "GET", url := url, headers := [], payload := none }
      , promised := true
      , events := invokeAndPromisify returnBody err result
      , finalState := self }

/-- `WPRequest.prototype.post` (`lib/WPRequest.js` lines 186-197): check
method support, build the URL and the auth string
`this._options.username + ':' + this._options.password`, then issue
`agent.post( url ).set( 'Authorization', auth ).send( data )` through
`invokeAndPromisify` with `returnBody`.  `data` is the payload after the
`data = data || {}` defaulting. -/
def WPRequest.post {V E : Type} (self : WPRequest) (data : V)
    (err : Option E) (result : Response V E) :
    Except String (VerbOutcome V E) :=
  match self._checkMethodSupport "post" with
  | Except.error e => Except.error e
  | Except.ok _ =>
    let url := self.generateRequestUri
    let auth := self._options.username ++ ":" ++ self._options.password
    Except.ok
      { issued := some
          { method := "POST", url := url
          , headers := [ ("Authorization", auth) ], payload := some data }
      , promised := true
      , events := invokeAndPromisify returnBody err result
      , finalState := self }

/-- `WPRequest.prototype.put` (`lib/WPRequest.js` lines 208-219): as `post`
but via `agent.put`. -/
def WPRequest.put {V E : Type} (self : WPRequest) (data : V)
    (err : Option E) (result : Response V E) :
    Except String (VerbOutcome V E) :=
  match self._checkMethodSupport "put" with
  | Except.error e => Except.error e
  | Except.ok _ =>
    let url := self.generateRequestUri
    let auth := self._options.username ++ ":" ++ self._options.password
    Except.ok
      { issued := some
          { method := "PUT", url := url
          , headers := [ ("Authorization", auth) ], payload := some data }
      , promised := true
      , events := invokeAndPromisify returnBody err result
      , finalState := self }

/-- `WPRequest.prototype.patch` (`lib/WPRequest.js` lines 229-234): checks
method support and ensures the callback, then does nothing further: no URL
is built, no transport request is issued, the callback is never invoked, and
no promise is returned (the JavaScript function returns `undefined`). -/
def WPRequest.patch {V E : Type} (self : WPRequest) :
    Except String (VerbOutcome V E) :=
  match self._checkMethodSupport "patch" with
  | Except.error e => Except.error e
  | Except.ok _ =>
    Except.ok
      { issued := none
      , promised := false
      , events := []
      , finalState := self }

/-- `WPRequest.prototype.delete` (`lib/WPRequest.js` lines 244-251): check
method support, build the URL and auth string, issue
`agent.del( url ).set( 'Authorization', auth )` (no payload) through
`invokeAndPromisify` with `returnBody`. -/
def WPRequest.delete {V E : Type} (self : WPRequest)
    (err : Option E) (result : Response V E) :
    Except String (VerbOutcome V E) :=
  match self._checkMethodSupport "delete" with
  | Except.error e => Except.error e
  | Except.ok _ =>
    let url := self.generateRequestUri
    let auth := self._options.username ++ ":" ++ self._options.password
    Except.ok
      { issued := some
          { method := "DELETE", url := url
          , headers := [ ("Authorization", auth) ], payload := none }
      , promised := true
      , events := invokeAndPromisify returnBody err result
      , finalState := self }

/-- `WPRequest.prototype.head` (`lib/WPRequest.js` lines 261-266): check
method support, build the URL, issue `agent.head( url )` through
`invokeAndPromisify` with `returnHeaders`. -/
def WPRequest.head {V E : Type} (self : WPRequest)
    (err : Option E) (result : Response V E) :
    Except String (VerbOutcome V E) :=
  match self._checkMethodSupport "head" with
  | Except.error e => Except.error e
  | Except.ok _ =>
    let url := self.generateRequestUri
    Except.ok
      { issued := some { method := "HEAD", url := url, headers := [], payload := none }
      , promised := true
      , events := invokeAndPromisify returnHeaders err result
      , finalState := self }

/-- The transport request issued by a verb invocation, if the invocation did
not throw and did issue one. -/
def issuedOf {V E : Type} (r : Except String (VerbOutcome V E)) :
    Option (TransportRequest V) :=
  match r with
  | Except.error _ => none
  | Except.ok v => v.issued

/-- The event trace of a verb invocation (empty when the invocation threw). -/
def eventsOf {V E : Type} (r : Except String (VerbOutcome V E)) :
    List (Ev V E) :=
  match r with
  | Except.error _ => []
  | Except.ok v => v.events

/-- The error argument of the first callback invocation in a trace. -/
def firstCallbackErr {V E : Type} : List (Ev V E) → Option (Option E)
  | [] => none
  | Ev.cb err _ :: _ => some err
  | _ :: rest => firstCallbackErr rest

/-- The reason of the first promise rejection in a trace. -/
def rejectionReason {V E : Type} : List (Ev V E) → Option E
  | [] => none
  | Ev.reject e :: _ => some e
  | _ :: rest => rejectionReason rest

/-- Modelled from the spec: `lib/taxonomies.js` is not under `src/` (only
`tests/lib/taxonomies.js` is).  Per the spec, the taxonomies subtype adds
the mutable fields `_id`, `_action` and `_actionId`, each initialised to
null. -/
structure TaxonomiesRequest where
  _options : WPOptions
  _supportedMethods : List String
  _id : Option String
  _action : Option String
  _actionId : Option String
deriving DecidableEq, Repr

/-- Modelled from the spec: the taxonomies constructor delegates to the base
constructor, initialises `_id`, `_action`, `_actionId` to null, and narrows
the permitted-verb set to get/head. -/
def TaxonomiesRequest.construct (options : WPOptions) : TaxonomiesRequest :=
  { _options := options
  , _supportedMethods := [ "get", "head" ]
  , _id := none
  , _action := none
  , _actionId := none }

/-- Modelled from the spec: `id(resourceId)` sets the resource identifier
field and returns the instance; after `terms()` has set the action field, a
second `.id(...)` call targets a specific sub-resource item, i.e. sets
`_actionId`.  JavaScript interpolates numeric ids into the URL string, so
identifiers are embedded as the strings they interpolate to. -/
def TaxonomiesRequest.id (self : TaxonomiesRequest) (resourceId : String) :
    TaxonomiesRequest :=
  match self._action with
  | none => { self with _id := some resourceId }
  | some _ => { self with _actionId := some resourceId }

/-- Modelled from the spec: `terms()` sets the action field to `"terms"` and
returns the instance. -/
def TaxonomiesRequest.terms (self : TaxonomiesRequest) : TaxonomiesRequest :=
  { self with _action := some "terms" }

/-- Modelled from the spec: the taxonomies `generateRequestUri()` override
composes the endpoint, the resource name `taxonomies`, and '/'-separated
`id`, `action`, `actionId` segments, omitting any segment whose backing
field is null (tests fix the endpoint `'/wp-json/'` composing to
`'/wp-json/taxonomies'`, so no separator is inserted after the endpoint). -/
def TaxonomiesRequest.generateRequestUri (self : TaxonomiesRequest) : String :=
  self._options.endpoint ++ "taxonomies"
    ++ (match self._id with
        | none => ""
        | some i => "/" ++ i)
    ++ (match self._action with
        | none => ""
        | some a =>
          "/" ++ a ++
            (match self._actionId with
             | none => ""
             | some ai => "/" ++ ai))

/-- Modelled from the spec: `lib/users.js` is not under `src/` (only
`tests/lib/users.js` is).  Per the spec, the users subtype adds the mutable
field `_id`, initialised to null; the `me` shortcut and a numeric id are
mutually exclusive, i.e. they target the same field. -/
structure UsersRequest where
  _options : WPOptions
  _supportedMethods : List String
  _id : Option String
deriving DecidableEq, Repr

/-- Modelled from the spec: the users constructor delegates to the base
constructor, initialises `_id` to null, and narrows the permitted-verb set
to get/head/post. -/
def UsersRequest.construct (options : WPOptions) : UsersRequest :=
  { _options := options
  , _supportedMethods := [ "get", "head", "post" ]
  , _id := none }

/-- Modelled from the spec: `me()` selects the current-user shortcut, making
the identifier segment `me`; returns the instance. -/
def UsersRequest.me (self : UsersRequest) : UsersRequest :=
  { self with _id := some "me" }

/-- Modelled from the spec: `id(userId)` sets the user identifier field and
returns the instance (numeric ids are embedded as the strings they
interpolate to in the URL). -/
def UsersRequest.id (self : UsersRequest) (userId : String) : UsersRequest :=
  { self with _id := some userId }

/-- Modelled from the spec: the users `generateRequestUri()` override
composes the endpoint, the resource name `users`, and the '/'-separated
identifier segment (either a user id or `me`), omitted when null. -/
def UsersRequest.generateRequestUri (self : UsersRequest) : String :=
  self._options.endpoint ++ "users"
    ++ (match self._id with
        | none => ""
        | some i => "/" ++ i)


-- Helper lemmas
-- =============

theorem jsToLowerCase_fixes_get : jsToLowerCase "get" = "get" := by decide

theorem jsToLowerCase_fixes_post : jsToLowerCase "post" = "post" := by decide

theorem jsToLowerCase_fixes_put : jsToLowerCase "put" = "put" := by decide

theorem jsToLowerCase_fixes_patch : jsToLowerCase "patch" = "patch" := by decide

theorem jsToLowerCase_fixes_delete : jsToLowerCase "delete" = "delete" := by decide

theorem jsToLowerCase_fixes_head : jsToLowerCase "head" = "head" := by decide

theorem get_eq_of_supported {V E : Type} (self : WPRequest)
    (err : Option E) (result : Response V E)
    (h : self._supportedMethods.contains "get" = true) :
    self.get err result =
      Except.ok
        { issued := some
            { method := "GET", url := self.generateRequestUri
            , headers := [], payload := none }
        , promised := true
        , events := invokeAndPromisify returnBody err result
        , finalState := self } := by
  have hm : "get" ∈ self._supportedMethods := by simpa using h
  simp [WPRequest.get, WPRequest._checkMethodSupport, jsToLowerCase_fixes_get, hm]

theorem get_eq_of_unsupported {V E : Type} (self : WPRequest)
    (err : Option E) (result : Response V E)
    (h : self._supportedMethods.contains "get" = false) :
    self.get err result = Except.error (unsupportedMessage self) := by
  have hm : "get" ∉ self._supportedMethods := by simpa using h
  simp [WPRequest.get, WPRequest._checkMethodSupport, jsToLowerCase_fixes_get, hm]

theorem post_eq_of_supported {V E : Type} (self : WPRequest) (data : V)
    (err : Option E) (result : Response V E)
    (h : self._supportedMethods.contains "post" = true) :
    self.post data err result =
      Except.ok
        { issued := some
            { method := "POST", url := self.generateRequestUri
            , headers := [ ("Authorization",
                self._options.username ++ ":" ++ self._options.password) ], payload := some data }
        , promised := true
        , events := invokeAndPromisify returnBody err result
        , finalState := self } := by
  have hm : "post" ∈ self._supportedMethods := by simpa using h
  simp [WPRequest.post, WPRequest._checkMethodSupport, jsToLowerCase_fixes_post, hm]

theorem post_eq_of_unsupported {V E : Type} (self : WPRequest) (data : V)
    (err : Option E) (result : Response V E)
    (h : self._supportedMethods.contains "post" = false) :
    self.post data err result = Except.error (unsupportedMessage self) := by
  have hm : "post" ∉ self._supportedMethods := by simpa using h
  simp [WPRequest.post, WPRequest._checkMethodSupport, jsToLowerCase_fixes_post, hm]

theorem put_eq_of_supported {V E : Type} (self : WPRequest) (data : V)
    (err : Option E) (result : Response V E)
    (h : self._supportedMethods.contains "put" = true) :
    self.put data err result =
      Except.ok
        { issued := some
            { method := "PUT", url := self.generateRequestUri
            , headers := [ ("Authorization",
                self._options.username ++ ":" ++ self._options.password) ], payload := some data }
        , promised := true
        , events := invokeAndPromisify returnBody err result
        , finalState := self } := by
  have hm : "put" ∈ self._supportedMethods := by simpa using h
  simp [WPRequest.put, WPRequest._checkMethodSupport, jsToLowerCase_fixes_put, hm]

theorem put_eq_of_unsupported {V E : Type} (self : WPRequest) (data : V)
    (err : Option E) (result : Response V E)
    (h : self._supportedMethods.contains "put" = false) :
    self.put data err result = Except.error (unsupportedMessage self) := by
  have hm : "put" ∉ self._supportedMethods := by simpa using h
  simp [WPRequest.put, WPRequest._checkMethodSupport, jsToLowerCase_fixes_put, hm]

theorem patch_eq_of_supported {V E : Type} (self : WPRequest)
    (h : self._supportedMethods.contains "patch" = true) :
    (self.patch : Except String (VerbOutcome V E)) =
      Except.ok
        { issued := none
        , promised := false
        , events := []
        , finalState := self } := by
  have hm : "patch" ∈ self._supportedMethods := by simpa using h
  simp [WPRequest.patch, WPRequest._checkMethodSupport, jsToLowerCase_fixes_patch, hm]

theorem patch_eq_of_unsupported {V E : Type} (self : WPRequest)
    (h : self._supportedMethods.contains "patch" = false) :
    (self.patch : Except String (VerbOutcome V E)) =
      Except.error (unsupportedMessage self) := by
  have hm : "patch" ∉ self._supportedMethods := by simpa using h
  simp [WPRequest.patch, WPRequest._checkMethodSupport, jsToLowerCase_fixes_patch, hm]

theorem delete_eq_of_supported {V E : Type} (self : WPRequest)
    (err : Option E) (result : Response V E)
    (h : self._supportedMethods.contains "delete" = true) :
    self.delete err result =
      Except.ok
        { issued := some
            { method := "DELETE", url := self.generateRequestUri
            , headers := [ ("Authorization",
                self._options.username ++ ":" ++ self._options.password) ], payload := none }
        , promised := true
        , events := invokeAndPromisify returnBody err result
        , finalState := self } := by
  have hm : "delete" ∈ self._supportedMethods := by simpa using h
  simp [WPRequest.delete, WPRequest._checkMethodSupport, jsToLowerCase_fixes_delete, hm]

theorem delete_eq_of_unsupported {V E : Type} (self : WPRequest)
    (err : Option E) (result : Response V E)
    (h : self._supportedMethods.contains "delete" = false) :
    self.delete err result = Except.error (unsupportedMessage self) := by
  have hm : "delete" ∉ self._supportedMethods := by simpa using h
  simp [WPRequest.delete, WPRequest._checkMethodSupport, jsToLowerCase_fixes_delete, hm]

theorem head_eq_of_supported {V E : Type} (self : WPRequest)
    (err : Option E) (result : Response V E)
    (h : self._supportedMethods.contains "head" = true) :
    self.head err result =
      Except.ok
        { issued := some
            { method := "HEAD", url := self.generateRequestUri
            , headers := [], payload := none }
        , promised := true
        , events := invokeAndPromisify returnHeaders err result
        , finalState := self } := by
  have hm : "head" ∈ self._supportedMethods := by simpa using h
  simp [WPRequest.head, WPRequest._checkMethodSupport, jsToLowerCase_fixes_head, hm]

theorem head_eq_of_unsupported {V E : Type} (self : WPRequest)
    (err : Option E) (result : Response V E)
    (h : self._supportedMethods.contains "head" = false) :
    self.head err result = Except.error (unsupportedMessage self) := by
  have hm : "head" ∉ self._supportedMethods := by simpa using h
  simp [WPRequest.head, WPRequest._checkMethodSupport, jsToLowerCase_fixes_head, hm]

theorem promiseSettle_success {V E : Type} (transform : Response V E → V)
    (result : Response V E) (hres : result.error = none) :
    promiseSettle transform none result = [ Ev.resolve (transform result) ] := by
  simp [promiseSettle, hres]

theorem promiseSettle_err {V E : Type} (transform : Response V E → V)
    (e : E) (result : Response V E) :
    promiseSettle transform (some e) result = [ Ev.reject e ] := by
  simp [promiseSettle]

theorem promiseSettle_resultError {V E : Type} (transform : Response V E → V)
    (e : E) (result : Response V E) (hres : result.error = some e) :
    promiseSettle transform none result = [ Ev.reject e ] := by
  simp [promiseSettle, hres]

-- Claim theorems
-- ==============

/-- C1: for every successful transport response (null `err`, no
`result.error`), the value passed as the second argument of the optional
callback equals the value the returned promise resolves with, and for get,
post, put and delete that common value is the response's `body` field, while
for head it is the response's `headers` field. -/
theorem claim_C1_success_values {V E : Type} (self : WPRequest) (data : V)
    (result : Response V E) (hres : result.error = none)
    (hget : self._supportedMethods.contains "get" = true)
    (hpost : self._supportedMethods.contains "post" = true)
    (hput : self._supportedMethods.contains "put" = true)
    (hdel : self._supportedMethods.contains "delete" = true)
    (hhead : self._supportedMethods.contains "head" = true) :
    eventsOf (self.get none result) =
      [ Ev.cb none result.body, Ev.resolve result.body ] ∧
    eventsOf (self.post data none result) =
      [ Ev.cb none result.body, Ev.resolve result.body ] ∧
    eventsOf (self.put data none result) =
      [ Ev.cb none result.body, Ev.resolve result.body ] ∧
    eventsOf (self.delete none result) =
      [ Ev.cb none result.body, Ev.resolve result.body ] ∧
    eventsOf (self.head none result) =
      [ Ev.cb none result.headers, Ev.resolve result.headers ] := by
  refine ⟨?_, ?_, ?_, ?_, ?_⟩
  · rw [get_eq_of_supported _ _ _ hget]
    simp [eventsOf, invokeAndPromisify, promiseSettle, returnBody, hres]
  · rw [post_eq_of_supported _ _ _ _ hpost]
    simp [eventsOf, invokeAndPromisify, promiseSettle, returnBody, hres]
  · rw [put_eq_of_supported _ _ _ _ hput]
    simp [eventsOf, invokeAndPromisify, promiseSettle, returnBody, hres]
  · rw [delete_eq_of_supported _ _ _ hdel]
    simp [eventsOf, invokeAndPromisify, promiseSettle, returnBody, hres]
  · rw [head_eq_of_supported _ _ _ hhead]
    simp [eventsOf, invokeAndPromisify, promiseSettle, returnHeaders, hres]

/-- C1 witness: the five equalities at a concrete instance and response. -/
theorem claim_C1_success_values_witness :
    eventsOf ((WPRequest.construct ⟨"/wp-json/", "u", "p"⟩).get
        (V := Nat) (E := Nat) none ⟨1, 2, none⟩) =
      [ Ev.cb none 1, Ev.resolve 1 ] ∧
    eventsOf ((WPRequest.construct ⟨"/wp-json/", "u", "p"⟩).post
        (E := Nat) 0 none ⟨1, 2, none⟩) =
      [ Ev.cb none 1, Ev.resolve 1 ] ∧
    eventsOf ((WPRequest.construct ⟨"/wp-json/", "u", "p"⟩).put
        (E := Nat) 0 none ⟨1, 2, none⟩) =
      [ Ev.cb none 1, Ev.resolve 1 ] ∧
    eventsOf ((WPRequest.construct ⟨"/wp-json/", "u", "p"⟩).delete
        (V := Nat) (E := Nat) none ⟨1, 2, none⟩) =
      [ Ev.cb none 1, Ev.resolve 1 ] ∧
    eventsOf ((WPRequest.construct ⟨"/wp-json/", "u", "p"⟩).head
        (V := Nat) (E := Nat) none ⟨1, 2, none⟩) =
      [ Ev.cb none 2, Ev.resolve 2 ] :=
  claim_C1_success_values (WPRequest.construct ⟨"/wp-json/", "u", "p"⟩)
    0 ⟨1, 2, none⟩ rfl (by decide) (by decide) (by decide) (by decide) (by decide)

/-- C2 is false as stated: at this concrete input the transport adapter
surfaces the error via `result.error` with a null `err`; the promise rejects
with `result.error` (5) but the callback's first argument is the null `err`,
so the two are not equal. -/
theorem claim_C2_counterexample :
    eventsOf ((WPRequest.construct ⟨"/wp-json/", "u", "p"⟩).get
        (V := Nat) (E := Nat) none ⟨1, 2, some 5⟩) =
      [ Ev.cb none 1, Ev.reject 5 ] ∧
    firstCallbackErr (eventsOf ((WPRequest.construct ⟨"/wp-json/", "u", "p"⟩).get
        (V := Nat) (E := Nat) none ⟨1, 2, some 5⟩)) = some none ∧
    rejectionReason (eventsOf ((WPRequest.construct ⟨"/wp-json/", "u", "p"⟩).get
        (V := Nat) (E := Nat) none ⟨1, 2, some 5⟩)) = some 5 ∧
    (some (none : Option Nat) : Option (Option Nat)) ≠ some (some 5) := by
  refine ⟨by decide, by decide, by decide, by decide⟩

/-- C2 (amended): for every invocation of get, post, put, delete or head in
which the transport adapter surfaces an error, the promise's rejection
reason is the transport error untransformed — `err` when `err` is non-null,
else `result.error` — and the callback's first argument is always `err`
itself: it equals the rejection reason when `err` is non-null, and is null
(not `result.error`) when the error was flagged only via `result.error`. -/
theorem claim_C2_error_routing {V E : Type} (self : WPRequest) (data : V)
    (e : E) (result : Response V E)
    (hget : self._supportedMethods.contains "get" = true)
    (hpost : self._supportedMethods.contains "post" = true)
    (hput : self._supportedMethods.contains "put" = true)
    (hdel : self._supportedMethods.contains "delete" = true)
    (hhead : self._supportedMethods.contains "head" = true) :
    (eventsOf (self.get (some e) result) =
        [ Ev.cb (some e) result.body, Ev.reject e ] ∧
      eventsOf (self.post data (some e) result) =
        [ Ev.cb (some e) result.body, Ev.reject e ] ∧
      eventsOf (self.put data (some e) result) =
        [ Ev.cb (some e) result.body, Ev.reject e ] ∧
      eventsOf (self.delete (some e) result) =
        [ Ev.cb (some e) result.body, Ev.reject e ] ∧
      eventsOf (self.head (some e) result) =
        [ Ev.cb (some e) result.headers, Ev.reject e ]) ∧
    (result.error = some e →
      eventsOf (self.get none result) =
        [ Ev.cb none result.body, Ev.reject e ] ∧
      eventsOf (self.post data none result) =
        [ Ev.cb none result.body, Ev.reject e ] ∧
      eventsOf (self.put data none result) =
        [ Ev.cb none result.body, Ev.reject e ] ∧
      eventsOf (self.delete none result) =
        [ Ev.cb none result.body, Ev.reject e ] ∧
      eventsOf (self.head none result) =
        [ Ev.cb none result.headers, Ev.reject e ]) := by
  constructor
  · refine ⟨?_, ?_, ?_, ?_, ?_⟩
    · rw [get_eq_of_supported _ _ _ hget]
      simp [eventsOf, invokeAndPromisify, promiseSettle, returnBody]
    · rw [post_eq_of_supported _ _ _ _ hpost]
      simp [eventsOf, invokeAndPromisify, promiseSettle, returnBody]
    · rw [put_eq_of_supported _ _ _ _ hput]
      simp [eventsOf, invokeAndPromisify, promiseSettle, returnBody]
    · rw [delete_eq_of_supported _ _ _ hdel]
      simp [eventsOf, invokeAndPromisify, promiseSettle, returnBody]
    · rw [head_eq_of_supported _ _ _ hhead]
      simp [eventsOf, invokeAndPromisify, promiseSettle, returnHeaders]
  · intro hres
    refine ⟨?_, ?_, ?_, ?_, ?_⟩
    · rw [get_eq_of_supported _ _ _ hget]
      simp [eventsOf, invokeAndPromisify, promiseSettle, returnBody, hres]
    · rw [post_eq_of_supported _ _ _ _ hpost]
      simp [eventsOf, invokeAndPromisify, promiseSettle, returnBody, hres]
    · rw [put_eq_of_supported _ _ _ _ hput]
      simp [eventsOf, invokeAndPromisify, promiseSettle, returnBody, hres]
    · rw [delete_eq_of_supported _ _ _ hdel]
      simp [eventsOf, invokeAndPromisify, promiseSettle, returnBody, hres]
    · rw [head_eq_of_supported _ _ _ hhead]
      simp [eventsOf, invokeAndPromisify, promiseSettle, returnHeaders, hres]

/-- C2 (amended) witness: the non-null-`err` route at a concrete instance
(first conjunct, get), with all hypotheses discharged concretely. -/
theorem claim_C2_error_routing_witness :
    eventsOf ((WPRequest.construct ⟨"/wp-json/", "u", "p"⟩).get
        (V := Nat) (E := Nat) (some 9) ⟨1, 2, none⟩) =
      [ Ev.cb (some 9) 1, Ev.reject 9 ] :=
  (claim_C2_error_routing (WPRequest.construct ⟨"/wp-json/", "u", "p"⟩)
    0 9 ⟨1, 2, none⟩ (by decide) (by decide) (by decide) (by decide) (by decide)).1.1

/-- C3: for every verb method and every request instance, invoking the verb
throws (an `Except.error`, delivered synchronously: no transport request is
issued, no callback invocation and no promise settlement occurs) if and only
if the verb's lowercased name is absent from the instance's permitted-verb
set; the membership check is case-insensitive (two method spellings with the
same lowercasing are treated identically); and the thrown error's message
enumerates the permitted set. -/
theorem claim_C3_unsupported_verb_throws {V E : Type} (self : WPRequest)
    (data : V) (err : Option E) (result : Response V E) :
    ((self._supportedMethods.contains "get" = false →
        self.get err result = Except.error (unsupportedMessage self) ∧
        issuedOf (self.get err result) = none ∧
        eventsOf (self.get err result) = []) ∧
      (self._supportedMethods.contains "get" = true →
        ∃ v, self.get err result = Except.ok v)) ∧
    ((self._supportedMethods.contains "post" = false →
        self.post data err result = Except.error (unsupportedMessage self) ∧
        issuedOf (self.post data err result) = none ∧
        eventsOf (self.post data err result) = []) ∧
      (self._supportedMethods.contains "post" = true →
        ∃ v, self.post data err result = Except.ok v)) ∧
    ((self._supportedMethods.contains "put" = false →
        self.put data err result = Except.error (unsupportedMessage self) ∧
        issuedOf (self.put data err result) = none ∧
        eventsOf (self.put data err result) = []) ∧
      (self._supportedMethods.contains "put" = true →
        ∃ v, self.put data err result = Except.ok v)) ∧
    ((self._supportedMethods.contains "patch" = false →
        (self.patch : Except String (VerbOutcome V E)) =
          Except.error (unsupportedMessage self)) ∧
      (self._supportedMethods.contains "patch" = true →
        ∃ v, (self.patch : Except String (VerbOutcome V E)) = Except.ok v)) ∧
    ((self._supportedMethods.contains "delete" = false →
        self.delete err result = Except.error (unsupportedMessage self) ∧
        issuedOf (self.delete err result) = none ∧
        eventsOf (self.delete err result) = []) ∧
      (self._supportedMethods.contains "delete" = true →
        ∃ v, self.delete err result = Except.ok v)) ∧
    ((self._supportedMethods.contains "head" = false →
        self.head err result = Except.error (unsupportedMessage self) ∧
        issuedOf (self.head err result) = none ∧
        eventsOf (self.head err result) = []) ∧
      (self._supportedMethods.contains "head" = true →
        ∃ v, self.head err result = Except.ok v)) ∧
    (∀ m1 m2 : String, jsToLowerCase m1 = jsToLowerCase m2 →
      self._checkMethodSupport m1 = self._checkMethodSupport m2) ∧
    unsupportedMessage self =
      "Unsupported method; supported methods are: " ++
        jsJoin ", " self._supportedMethods := by
  refine ⟨⟨?_, ?_⟩, ⟨?_, ?_⟩, ⟨?_, ?_⟩, ⟨?_, ?_⟩, ⟨?_, ?_⟩, ⟨?_, ?_⟩, ?_, rfl⟩
  · intro h
    rw [get_eq_of_unsupported _ _ _ h]
    simp [issuedOf, eventsOf]
  · intro h
    exact ⟨_, get_eq_of_supported _ _ _ h⟩
  · intro h
    rw [post_eq_of_unsupported _ _ _ _ h]
    simp [issuedOf, eventsOf]
  · intro h
    exact ⟨_, post_eq_of_supported _ _ _ _ h⟩
  · intro h
    rw [put_eq_of_unsupported _ _ _ _ h]
    simp [issuedOf, eventsOf]
  · intro h
    exact ⟨_, put_eq_of_supported _ _ _ _ h⟩
  · intro h
    exact patch_eq_of_unsupported _ h
  · intro h
    exact ⟨_, patch_eq_of_supported _ h⟩
  · intro h
    rw [delete_eq_of_unsupported _ _ _ h]
    simp [issuedOf, eventsOf]
  · intro h
    exact ⟨_, delete_eq_of_supported _ _ _ h⟩
  · intro h
    rw [head_eq_of_unsupported _ _ _ h]
    simp [issuedOf, eventsOf]
  · intro h
    exact ⟨_, head_eq_of_supported _ _ _ h⟩
  · intro m1 m2 hm
    simp [WPRequest._checkMethodSupport, hm]

/-- C3 witness: on an instance restricted to get/head (the taxonomies
permitted set), put throws the enumerating error and no transport request is
issued, while get succeeds. -/
theorem claim_C3_unsupported_verb_throws_witness :
    (WPRequest.mk ⟨"/wp-json/", "u", "p"⟩ [ "get", "head" ]).put
        (E := Nat) 0 none ⟨1, 2, none⟩ =
      Except.error "Unsupported method; supported methods are: get, head" ∧
    issuedOf ((WPRequest.mk ⟨"/wp-json/", "u", "p"⟩ [ "get", "head" ]).put
        (E := Nat) 0 none ⟨1, 2, none⟩) = none := by
  have h := claim_C3_unsupported_verb_throws
    (WPRequest.mk ⟨"/wp-json/", "u", "p"⟩ [ "get", "head" ])
    (0 : Nat) (none : Option Nat) ⟨1, 2, none⟩
  have h2 := h.2.2.1.1 (by decide)
  exact ⟨h2.1.trans (by decide), h2.2.1⟩

/-- C4 is false as stated: on a freshly constructed instance `patch` is in
the permitted-verb set, yet invoking patch returns no promise
(`promised = false`, the JavaScript function returns `undefined`) and never
invokes the callback (its event trace is empty). -/
theorem claim_C4_counterexample :
    (WPRequest.construct ⟨"/wp-json/", "u", "p"⟩).patch (V := Nat) (E := Nat) =
      Except.ok
        { issued := none
        , promised := false
        , events := []
        , finalState := WPRequest.construct ⟨"/wp-json/", "u", "p"⟩ } := by
  decide

/-- C4 (amended): every verb method except patch (get, post, put, delete,
head), when invoked with its verb in the permitted set, returns a promise
and always invokes the optional callback, receiving the error as its first
argument and the transformed result as its second; patch, though its support
is validated the same way, returns no promise and never invokes the
callback. -/
theorem claim_C4_verb_contract {V E : Type} (self : WPRequest) (data : V)
    (err : Option E) (result : Response V E)
    (hget : self._supportedMethods.contains "get" = true)
    (hpost : self._supportedMethods.contains "post" = true)
    (hput : self._supportedMethods.contains "put" = true)
    (hpatch : self._supportedMethods.contains "patch" = true)
    (hdel : self._supportedMethods.contains "delete" = true)
    (hhead : self._supportedMethods.contains "head" = true) :
    self.get err result =
      Except.ok
        { issued := some
            { method := "GET", url := self.generateRequestUri
            , headers := [], payload := none }
        , promised := true
        , events := Ev.cb err (returnBody result) ::
            promiseSettle returnBody err result
        , finalState := self } ∧
    self.post data err result =
      Except.ok
        { issued := some
            { method := "POST", url := self.generateRequestUri
            , headers := [ ("Authorization",
                self._options.username ++ ":" ++ self._options.password) ]
            , payload := some data }
        , promised := true
        , events := Ev.cb err (returnBody result) ::
            promiseSettle returnBody err result
        , finalState := self } ∧
    self.put data err result =
      Except.ok
        { issued := some
            { method := "PUT", url := self.generateRequestUri
            , headers := [ ("Authorization",
                self._options.username ++ ":" ++ self._options.password) ]
            , payload := some data }
        , promised := true
        , events := Ev.cb err (returnBody result) ::
            promiseSettle returnBody err result
        , finalState := self } ∧
    self.delete err result =
      Except.ok
        { issued := some
            { method := "DELETE", url := self.generateRequestUri
            , headers := [ ("Authorization",
                self._options.username ++ ":" ++ self._options.password) ]
            , payload := none }
        , promised := true
        , events := Ev.cb err (returnBody result) ::
            promiseSettle returnBody err result
        , finalState := self } ∧
    self.head err result =
      Except.ok
        { issued := some
            { method := "HEAD", url := self.generateRequestUri
            , headers := [], payload := none }
        , promised := true
        , events := Ev.cb err (returnHeaders result) ::
            promiseSettle returnHeaders err result
        , finalState := self } ∧
    (self.patch : Except String (VerbOutcome V E)) =
      Except.ok
        { issued := none
        , promised := false
        , events := []
        , finalState := self } := by
  refine ⟨?_, ?_, ?_, ?_, ?_, ?_⟩
  · rw [get_eq_of_supported _ _ _ hget]
    simp [invokeAndPromisify]
  · rw [post_eq_of_supported _ _ _ _ hpost]
    simp [invokeAndPromisify]
  · rw [put_eq_of_supported _ _ _ _ hput]
    simp [invokeAndPromisify]
  · rw [delete_eq_of_supported _ _ _ hdel]
    simp [invokeAndPromisify]
  · rw [head_eq_of_supported _ _ _ hhead]
    simp [invokeAndPromisify]
  · exact patch_eq_of_supported _ hpatch

/-- C4 (amended) witness: the six verb conjuncts at a concrete instance,
with the support hypotheses discharged concretely. -/
theorem claim_C4_verb_contract_witness :
    (WPRequest.construct ⟨"/wp-json/", "u", "p"⟩).get
        (V := Nat) (E := Nat) none ⟨1, 2, none⟩ =
      Except.ok
        { issued := some
            { method := "GET", url := "/wp-json/", headers := [], payload := none }
        , promised := true
        , events := [ Ev.cb none 1, Ev.resolve 1 ]
        , finalState := WPRequest.construct ⟨"/wp-json/", "u", "p"⟩ } ∧
    (WPRequest.construct ⟨"/wp-json/", "u", "p"⟩).patch (V := Nat) (E := Nat) =
      Except.ok
        { issued := none
        , promised := false
        , events := []
        , finalState := WPRequest.construct ⟨"/wp-json/", "u", "p"⟩ } := by
  have h := claim_C4_verb_contract (WPRequest.construct ⟨"/wp-json/", "u", "p"⟩)
    (0 : Nat) (none : Option Nat) ⟨1, 2, none⟩
    (by decide) (by decide) (by decide) (by decide) (by decide) (by decide)
  exact ⟨h.1.trans (by decide), h.2.2.2.2.2⟩

/-- C5: when `patch` is in the instance's permitted-verb set, invoking patch
validates method support (it reaches the ok branch of
`_checkMethodSupport`), performs no transport request (`issued = none`, no
events occur), and leaves the instance's state unchanged
(`finalState = self`). -/
theorem claim_C5_patch_is_noop {V E : Type} (self : WPRequest)
    (hpatch : self._supportedMethods.contains "patch" = true) :
    (self.patch : Except String (VerbOutcome V E)) =
      Except.ok
        { issued := none
        , promised := false
        , events := []
        , finalState := self } :=
  patch_eq_of_supported self hpatch

/-- C5 witness: patch on a concrete fresh instance. -/
theorem claim_C5_patch_is_noop_witness :
    (WPRequest.construct ⟨"/wp-json/", "venus", "mars"⟩).patch
        (V := Nat) (E := Nat) =
      Except.ok
        { issued := none
        , promised := false
        , events := []
        , finalState := WPRequest.construct ⟨"/wp-json/", "venus", "mars"⟩ } :=
  claim_C5_patch_is_noop (WPRequest.construct ⟨"/wp-json/", "venus", "mars"⟩)
    (by decide)

/-- C6: for a taxonomies instance configured with endpoint `/wp-json/`, a
fresh instance's URI is `/wp-json/taxonomies`; after `.id('my-tax')` it is
`/wp-json/taxonomies/my-tax`; after `.id('my-tax').terms()` it is
`/wp-json/taxonomies/my-tax/terms`; after `.id('my-tax').terms().id(1337)`
it is `/wp-json/taxonomies/my-tax/terms/1337`.  Null-backed segments are
omitted: the fresh instance (all fields null, any endpoint) yields
`endpoint ++ "taxonomies"` with no id/action/actionId segment, and with only
the action set the id and actionId segments are absent
(`/wp-json/taxonomies/terms`). -/
theorem claim_C6_taxonomies_uri (opts : WPOptions) :
    (TaxonomiesRequest.construct opts).generateRequestUri =
      opts.endpoint ++ "taxonomies" ∧
    (TaxonomiesRequest.construct ⟨"/wp-json/", "", ""⟩).generateRequestUri =
      "/wp-json/taxonomies" ∧
    ((TaxonomiesRequest.construct ⟨"/wp-json/", "", ""⟩).id
        "my-tax").generateRequestUri =
      "/wp-json/taxonomies/my-tax" ∧
    (((TaxonomiesRequest.construct ⟨"/wp-json/", "", ""⟩).id
        "my-tax").terms).generateRequestUri =
      "/wp-json/taxonomies/my-tax/terms" ∧
    ((((TaxonomiesRequest.construct ⟨"/wp-json/", "", ""⟩).id
        "my-tax").terms).id "1337").generateRequestUri =
      "/wp-json/taxonomies/my-tax/terms/1337" ∧
    ((TaxonomiesRequest.construct ⟨"/wp-json/", "", ""⟩).terms).generateRequestUri =
      "/wp-json/taxonomies/terms" := by
  refine ⟨?_, by decide, by decide, by decide, by decide, by decide⟩
  simp [TaxonomiesRequest.construct, TaxonomiesRequest.generateRequestUri,
    String.append_empty, String.append_assoc]

/-- C7: for a users instance configured with endpoint `/wp-json/`, a fresh
instance's URI is `/wp-json/users`; after `.me()` it is `/wp-json/users/me`;
after `.id(1337)` it is `/wp-json/users/1337`.  The `me` shortcut and a
numeric id are mutually exclusive: both target the same identifier field, so
each overwrites the other and the URI never carries both segments. -/
theorem claim_C7_users_uri (opts : WPOptions) (i : String)
    (u : UsersRequest) :
    (UsersRequest.construct opts).generateRequestUri =
      opts.endpoint ++ "users" ∧
    (UsersRequest.construct ⟨"/wp-json/", "", ""⟩).generateRequestUri =
      "/wp-json/users" ∧
    ((UsersRequest.construct ⟨"/wp-json/", "", ""⟩).me).generateRequestUri =
      "/wp-json/users/me" ∧
    ((UsersRequest.construct ⟨"/wp-json/", "", ""⟩).id
        "1337").generateRequestUri =
      "/wp-json/users/1337" ∧
    (u.me).id i = u.id i ∧
    (u.id i).me = u.me := by
  refine ⟨?_, by decide, by decide, by decide, rfl, rfl⟩
  simp [UsersRequest.construct, UsersRequest.generateRequestUri,
    String.append_empty, String.append_assoc]

/-- C8 is false as stated: at this concrete input (head invocation with a
null `err` but `result.error` set) the callback is indeed invoked before the
promise settles, but the two do not carry identical errors: the callback's
first argument is the null `err` while the promise rejects with
`result.error` (7). -/
theorem claim_C8_counterexample :
    eventsOf ((WPRequest.construct ⟨"/wp-json/", "u", "p"⟩).head
        (V := Nat) (E := Nat) none ⟨1, 2, some 7⟩) =
      [ Ev.cb none 2, Ev.reject 7 ] ∧
    firstCallbackErr (eventsOf ((WPRequest.construct ⟨"/wp-json/", "u", "p"⟩).head
        (V := Nat) (E := Nat) none ⟨1, 2, some 7⟩)) = some none ∧
    rejectionReason (eventsOf ((WPRequest.construct ⟨"/wp-json/", "u", "p"⟩).head
        (V := Nat) (E := Nat) none ⟨1, 2, some 7⟩)) = some 7 ∧
    (some (none : Option Nat) : Option (Option Nat)) ≠ some (some 7) := by
  refine ⟨by decide, by decide, by decide, by decide⟩

/-- C8 (amended): for every single invocation of get, post, put, delete or
head, the callback invocation is the first event and the single promise
settlement follows it, so the callback is invoked before the promise
settles; on success both carry the identical transformed data, and on
failure both carry the identical error when the transport `err` is non-null,
while a failure flagged only via `result.error` rejects the promise with
`result.error` as the callback receives the null `err`. -/
theorem claim_C8_callback_before_settle {V E : Type} (self : WPRequest)
    (data : V) (err : Option E) (result : Response V E)
    (hget : self._supportedMethods.contains "get" = true)
    (hpost : self._supportedMethods.contains "post" = true)
    (hput : self._supportedMethods.contains "put" = true)
    (hdel : self._supportedMethods.contains "delete" = true)
    (hhead : self._supportedMethods.contains "head" = true) :
    (eventsOf (self.get err result) =
        Ev.cb err (returnBody result) :: promiseSettle returnBody err result ∧
      eventsOf (self.post data err result) =
        Ev.cb err (returnBody result) :: promiseSettle returnBody err result ∧
      eventsOf (self.put data err result) =
        Ev.cb err (returnBody result) :: promiseSettle returnBody err result ∧
      eventsOf (self.delete err result) =
        Ev.cb err (returnBody result) :: promiseSettle returnBody err result ∧
      eventsOf (self.head err result) =
        Ev.cb err (returnHeaders result) ::
          promiseSettle returnHeaders err result) ∧
    (∀ transform : Response V E → V,
      (err = none → result.error = none →
        promiseSettle transform err result =
          [ Ev.resolve (transform result) ]) ∧
      (∀ e : E, err = some e →
        promiseSettle transform err result = [ Ev.reject e ]) ∧
      (∀ e : E, err = none → result.error = some e →
        promiseSettle transform err result = [ Ev.reject e ])) := by
  constructor
  · refine ⟨?_, ?_, ?_, ?_, ?_⟩
    · rw [get_eq_of_supported _ _ _ hget]
      simp [eventsOf, invokeAndPromisify]
    · rw [post_eq_of_supported _ _ _ _ hpost]
      simp [eventsOf, invokeAndPromisify]
    · rw [put_eq_of_supported _ _ _ _ hput]
      simp [eventsOf, invokeAndPromisify]
    · rw [delete_eq_of_supported _ _ _ hdel]
      simp [eventsOf, invokeAndPromisify]
    · rw [head_eq_of_supported _ _ _ hhead]
      simp [eventsOf, invokeAndPromisify]
  · intro transform
    refine ⟨?_, ?_, ?_⟩
    · intro he hres
      subst he
      exact promiseSettle_success transform result hres
    · intro e he
      subst he
      exact promiseSettle_err transform e result
    · intro e he hres
      subst he
      exact promiseSettle_resultError transform e result hres

/-- C8 (amended) witness: the event order and success settlement at a
concrete get invocation. -/
theorem claim_C8_callback_before_settle_witness :
    eventsOf ((WPRequest.construct ⟨"/wp-json/", "u", "p"⟩).get
        (V := Nat) (E := Nat) none ⟨3, 4, none⟩) =
      Ev.cb none 3 :: promiseSettle returnBody none ⟨3, 4, none⟩ ∧
    promiseSettle (V := Nat) (E := Nat) returnBody none ⟨3, 4, none⟩ =
      [ Ev.resolve 3 ] := by
  have h := claim_C8_callback_before_settle
    (WPRequest.construct ⟨"/wp-json/", "u", "p"⟩) (0 : Nat)
    (none : Option Nat) (⟨3, 4, none⟩ : Response Nat Nat)
    (by decide) (by decide) (by decide) (by decide) (by decide)
  exact ⟨h.1.1, (h.2 returnBody).1 rfl rfl⟩

/-- C9: for every invocation of post, put or delete whose verb is permitted,
the issued transport request carries an Authorization header whose value is
built from the configured credentials as `username:password`; it is part of
the request handed to the transport adapter, hence added before the request
is sent. -/
theorem claim_C9_auth_header {V E : Type} (self : WPRequest) (data : V)
    (err : Option E) (result : Response V E)
    (hpost : self._supportedMethods.contains "post" = true)
    (hput : self._supportedMethods.contains "put" = true)
    (hdel : self._supportedMethods.contains "delete" = true) :
    issuedOf (self.post data err result) = some
      { method := "POST", url := self.generateRequestUri
      , headers := [ ("Authorization",
          self._options.username ++ ":" ++ self._options.password) ]
      , payload := some data } ∧
    issuedOf (self.put data err result) = some
      { method := "PUT", url := self.generateRequestUri
      , headers := [ ("Authorization",
          self._options.username ++ ":" ++ self._options.password) ]
      , payload := some data } ∧
    issuedOf (self.delete err result) = some
      { method := "DELETE", url := self.generateRequestUri
      , headers := [ ("Authorization",
          self._options.username ++ ":" ++ self._options.password) ]
      , payload := none } := by
  refine ⟨?_, ?_, ?_⟩
  · rw [post_eq_of_supported _ _ _ _ hpost]
    simp [issuedOf]
  · rw [put_eq_of_supported _ _ _ _ hput]
    simp [issuedOf]
  · rw [delete_eq_of_supported _ _ _ hdel]
    simp [issuedOf]

/-- C9 witness: the Authorization header value `user:pass` on the three
authenticated verbs at a concrete instance. -/
theorem claim_C9_auth_header_witness :
    issuedOf ((WPRequest.construct ⟨"/wp-json/", "user", "pass"⟩).post
        (E := Nat) (5 : Nat) none ⟨1, 2, none⟩) = some
      { method := "POST", url := "/wp-json/"
      , headers := [ ("Authorization", "user:pass") ]
      , payload := some 5 } ∧
    issuedOf ((WPRequest.construct ⟨"/wp-json/", "user", "pass"⟩).delete
        (V := Nat) (E := Nat) none ⟨1, 2, none⟩) = some
      { method := "DELETE", url := "/wp-json/"
      , headers := [ ("Authorization", "user:pass") ]
      , payload := none } := by
  have h := claim_C9_auth_header (WPRequest.construct ⟨"/wp-json/", "user", "pass"⟩)
    (5 : Nat) (none : Option Nat) (⟨1, 2, none⟩ : Response Nat Nat)
    (by decide) (by decide) (by decide)
  exact ⟨h.1.trans (by decide), h.2.2.trans (by decide)⟩

/-- C10: credentials never influence GET or HEAD requests.  For any two
configurations that differ only in username and password (same endpoint,
same permitted-verb set), get and head issue identical transport requests;
on a fresh instance that common request is the bare GET/HEAD of the endpoint
with an empty header list — no Authorization or other credential-derived
header. -/
theorem claim_C10_credentials_not_in_get_head {V E : Type}
    (ms : List String) (ep u1 p1 u2 p2 : String)
    (err : Option E) (result : Response V E) :
    issuedOf ((WPRequest.mk ⟨ep, u1, p1⟩ ms).get err result) =
      issuedOf ((WPRequest.mk ⟨ep, u2, p2⟩ ms).get err result) ∧
    issuedOf ((WPRequest.mk ⟨ep, u1, p1⟩ ms).head err result) =
      issuedOf ((WPRequest.mk ⟨ep, u2, p2⟩ ms).head err result) ∧
    issuedOf ((WPRequest.construct ⟨ep, u1, p1⟩).get err result) =
      some { method := "GET", url := ep, headers := [], payload := none } ∧
    issuedOf ((WPRequest.construct ⟨ep, u1, p1⟩).head err result) =
      some { method := "HEAD", url := ep, headers := [], payload := none } := by
  have hg : (WPRequest.construct ⟨ep, u1, p1⟩)._supportedMethods.contains
      "get" = true := by
    show ([ "head", "get", "put", "post", "patch", "delete" ].contains
      "get") = true
    decide
  have hh : (WPRequest.construct ⟨ep, u1, p1⟩)._supportedMethods.contains
      "head" = true := by
    show ([ "head", "get", "put", "post", "patch", "delete" ].contains
      "head") = true
    decide
  refine ⟨?_, ?_, ?_, ?_⟩
  · cases hc : ms.contains "get" with
    | false =>
      rw [get_eq_of_unsupported _ _ _ hc, get_eq_of_unsupported _ _ _ hc]
      simp [issuedOf]
    | true =>
      rw [get_eq_of_supported _ _ _ hc, get_eq_of_supported _ _ _ hc]
      simp [issuedOf, WPRequest.generateRequestUri]
  · cases hc : ms.contains "head" with
    | false =>
      rw [head_eq_of_unsupported _ _ _ hc, head_eq_of_unsupported _ _ _ hc]
      simp [issuedOf]
    | true =>
      rw [head_eq_of_supported _ _ _ hc, head_eq_of_supported _ _ _ hc]
      simp [issuedOf, WPRequest.generateRequestUri]
  · rw [get_eq_of_supported _ _ _ hg]
    simp [issuedOf, WPRequest.generateRequestUri, WPRequest.construct]
  · rw [head_eq_of_supported _ _ _ hh]
    simp [issuedOf, WPRequest.generateRequestUri, WPRequest.construct]
